import Mathlib

set_option autoImplicit false

namespace ResidentialSearch

/-!
Shallow embedding of the route-aware apartment search pipeline of the
residential-Search-Streamlined repository.

The embedded functions are translated from:
  - src/src/app/_actions/getRouteAndApartments.ts  (the latest pipeline revision)
  - src/src/lib/maps.ts                            (geocoder, router, polyline codec)
  - src/unnamed/part_010                           (an earlier pipeline revision)
  - src/unnamed/part_012                           (an earlier pipeline revision with
                                                    getRoute / createMockRoute)

Numbers are modelled with exact arithmetic (ℚ / ℤ / ℕ).  JavaScript 32-bit
bitwise semantics are made explicit (toInt32) where they could matter; network
calls and the turf.js geometric kernel (nearestPointOnLine, distance) are
abstracted as explicit function parameters, so every code path that the claims
talk about is represented by a total Lean function.
-/

/-- Coordinate record `{ lat, lng }` (WGS84 degrees), as in src/types. -/
structure LatLng where
  lat : ℚ
  lng : ℚ
  deriving DecidableEq, Repr

/-- JS Math.round: round half toward +infinity, Math.round x = floor (x + 1/2). -/
def jsRound (q : ℚ) : ℤ := ⌊q + 1 / 2⌋

/-- Wrap an integer to JS 32-bit signed-integer range (the coercion applied by
JS bitwise operators).  2147483648 = 2^31, 4294967296 = 2^32. -/
def toInt32 (z : ℤ) : ℤ := (z + 2147483648) % 4294967296 - 2147483648

/-- The zig-zag step of encodeValue in src/src/lib/maps.ts:
value = value < 0 ? ~(value << 1) : value << 1
with the 32-bit wrap of << made explicit (~x is -x-1 on int32). -/
def zigzag (value : ℤ) : ℤ :=
  if value < 0 then toInt32 (-(toInt32 (2 * value)) - 1) else toInt32 (2 * value)

/-- The chunk-emitting loop of encodeValue: emit 5-bit little-endian groups,
each but the last carrying the 0x20 continuation bit, each offset by 63.
32 + value % 32 is 0x20 | (value & 0x1f) for value ≥ 32. -/
def encChunks (value : ℕ) : List ℕ :=
  if h : value < 32 then [value + 63]
  else (32 + value % 32 + 63) :: encChunks (value / 32)
termination_by value
decreasing_by exact Nat.div_lt_self (by omega) (by omega)

/-- encodeValue from src/src/lib/maps.ts (one signed varint, as char codes). -/
def encodeValue (value : ℤ) : List ℕ := encChunks (zigzag value).toNat

/-- The loop body of encodePolyline from src/src/lib/maps.ts: scale each
coordinate by 1e5 with Math.round and emit the deltas from the previous
scaled point. -/
def encodePolyAux : List LatLng → ℤ → ℤ → List ℕ
  | [], _, _ => []
  | coord :: rest, prevLat, prevLng =>
    let latE5 := jsRound (coord.lat * 100000)
    let lngE5 := jsRound (coord.lng * 100000)
    encodeValue (latE5 - prevLat) ++ encodeValue (lngE5 - prevLng) ++
      encodePolyAux rest latE5 lngE5

/-- encodePolyline from src/src/lib/maps.ts.  The produced string is modelled
as its list of char codes (String.fromCharCode / charCodeAt are inverse to
each other on this ASCII range). -/
def encodePolyline (coordinates : List LatLng) : List ℕ := encodePolyAux coordinates 0 0

/-- The inner do-while of decodePolyline: read chunks b = charCodeAt - 63,
accumulate result |= (b & 0x1f) << shift, stop when b < 0x20.  Returns the
accumulated value and the unconsumed char codes (none if the input ends
mid-varint, where the JS code would read NaN). -/
def decVar : List ℕ → ℕ → ℕ → Option (ℕ × List ℕ)
  | [], _, _ => none
  | c :: rest, shift, acc =>
    let b : ℤ := (c : ℤ) - 63
    let acc' := acc + (b % 32).toNat * 2 ^ shift
    if b < 32 then some (acc', rest) else decVar rest (shift + 5) acc'

/-- The un-zig-zag step of decodePolyline:
dlat = result & 1 ? ~(result >> 1) : result >> 1. -/
def unzigzag (result : ℕ) : ℤ :=
  if result % 2 = 1 then -((result / 2 : ℕ) : ℤ) - 1 else ((result / 2 : ℕ) : ℤ)

/-- The while-loop of decodePolyline from src/src/lib/maps.ts, with explicit
fuel (each iteration consumes at least one char code, so the input length is
enough fuel; a malformed tail where the JS code would produce NaN coordinates
is cut off instead). -/
def decodePolyAux : ℕ → List ℕ → ℤ → ℤ → List LatLng
  | 0, _, _, _ => []
  | fuel + 1, chars, lat, lng =>
    match decVar chars 0 0 with
    | none => []
    | some (r1, rest1) =>
      match decVar rest1 0 0 with
      | none => []
      | some (r2, rest2) =>
        let lat' := lat + unzigzag r1
        let lng' := lng + unzigzag r2
        { lat := (lat' : ℚ) / 100000, lng := (lng' : ℚ) / 100000 } ::
          decodePolyAux fuel rest2 lat' lng'

/-- decodePolyline from src/src/lib/maps.ts (input as char codes). -/
def decodePolyline (chars : List ℕ) : List LatLng := decodePolyAux chars.length chars 0 0

/-- The DistanceBucket string union "≤1mi" | "≤2mi" | "≤3mi" from src/types. -/
inductive DistanceBucket where
  | mi1
  | mi2
  | mi3
  deriving DecidableEq, Repr

/-- getBucketFromDistance from src/src/app/_actions/getRouteAndApartments.ts
(lines 836-840); the argument is a distance in miles. -/
def getBucketFromDistance (distanceMiles : ℚ) : DistanceBucket :=
  if distanceMiles ≤ 1 then .mi1
  else if distanceMiles ≤ 2 then .mi2
  else .mi3

/-- kmToMiles from src/unnamed/part_010: km * 0.621371. -/
def kmToMiles (km : ℚ) : ℚ := km * (621371 / 1000000)

/-- The LightApartment record of getRouteAndApartments.ts. -/
structure LightApartment where
  place_id : String
  name : String
  lat : ℚ
  lng : ℚ
  geohash : String
  deriving DecidableEq, Repr

/-- The (light) PlaceDetails record built by processApartmentDistancesLight
(photos, rating and website are presentation-only and omitted). -/
structure PlaceDetails where
  place_id : String
  name : String
  formatted_address : String
  lat : ℚ
  lng : ℚ
  deriving DecidableEq, Repr

/-- ApartmentListing from src/types: a place plus its distance to the route
and the assigned bucket (the transit-step annotation of the part_010 revision
is presentation-only and omitted). -/
structure ApartmentListing where
  place : PlaceDetails
  distanceToRoute : ℚ
  bucket : DistanceBucket
  deriving DecidableEq, Repr

/-- processApartmentDistancesLight from
src/src/app/_actions/getRouteAndApartments.ts (lines 708-745).  The turf.js
geometric kernel nearestPointOnLine(routeLine, pt, { units: "kilometers"
}).properties.dist is abstracted as the oracle distKm (the route polyline is
fixed inside it); everything after that kernel is translated verbatim:
distanceMiles = distanceKm * 0.621371, stored in distanceToRoute, and the
bucket computed from the mile value. -/
def processApartmentDistancesLight (apartments : List LightApartment)
    (distKm : LightApartment → ℚ) : List ApartmentListing :=
  apartments.map fun apartment =>
    let distanceKm := distKm apartment
    let distanceMiles := distanceKm * (621371 / 1000000)
    { place :=
        { place_id := apartment.place_id
          name := apartment.name
          formatted_address := ""
          lat := apartment.lat
          lng := apartment.lng }
      distanceToRoute := distanceMiles
      bucket := getBucketFromDistance distanceMiles }

/-- getBucketFromDistance from src/unnamed/part_010 (lines 798-806): the
argument is a distance in METERS and is converted to miles
(* 0.000621371) only for choosing the bucket. -/
def getBucketFromDistanceMeters (distanceMeters : ℚ) : DistanceBucket :=
  let distanceMiles := distanceMeters * (621371 / 1000000000)
  if distanceMiles ≤ 1 then .mi1
  else if distanceMiles ≤ 2 then .mi2
  else .mi3

/-- processApartmentDistances from src/unnamed/part_010 (lines 705-736).  The
turf.js kernel nearestPointOnLine(routeLine, pt, { units: "meters"
}).properties.dist is abstracted as the oracle distMeters; the raw meter
value is stored in distanceToRoute unconverted, and the bucket is computed by
the meter-based bucket function. -/
def processApartmentDistances (apartments : List PlaceDetails)
    (distMeters : PlaceDetails → ℚ) : List ApartmentListing :=
  apartments.map fun apartment =>
    let distanceToRoute := distMeters apartment
    { place := apartment
      distanceToRoute := distanceToRoute
      bucket := getBucketFromDistanceMeters distanceToRoute }

/-- Stable insertion, modelling one step of the stable JS Array.sort with
comparator (a, b) => a.distanceToRoute - b.distanceToRoute (an element is
inserted after existing equal-distance elements). -/
def insertByDistance (a : ApartmentListing) :
    List ApartmentListing → List ApartmentListing
  | [] => [a]
  | b :: rest =>
    if a.distanceToRoute < b.distanceToRoute then a :: b :: rest
    else b :: insertByDistance a rest

/-- Stable sort by ascending distanceToRoute (JS Array.sort is stable). -/
def sortByDistance (listings : List ApartmentListing) : List ApartmentListing :=
  listings.foldr insertByDistance []

/-- groupApartmentsByDistance from
src/src/app/_actions/getRouteAndApartments.ts (lines 845-864): each listing
with distanceToRoute ≤ 3 is pushed onto the list named by its own bucket
field (so each bucket holds, in original order, the kept listings whose
bucket field names it), then each bucket is sorted by distance. -/
def groupApartmentsByDistance (apartments : List ApartmentListing) :
    List ApartmentListing × List ApartmentListing × List ApartmentListing :=
  let kept := apartments.filter fun a => a.distanceToRoute ≤ 3
  (sortByDistance (kept.filter fun a => a.bucket = .mi1),
   sortByDistance (kept.filter fun a => a.bucket = .mi2),
   sortByDistance (kept.filter fun a => a.bucket = .mi3))

/-- The bucket/count part of SearchResult (routeOptions and selectedRoute are
carried through unchanged by the pipeline and omitted here). -/
structure SearchResult where
  apartments : List ApartmentListing × List ApartmentListing × List ApartmentListing
  totalFound : ℕ
  deriving Repr

/-- The tail of getRouteAndApartments (lines 129-137): group the processed
listings into buckets and report totalFound = apartmentListings.length,
counted BEFORE the ≤ 3 mi cutoff of groupApartmentsByDistance. -/
def mkSearchResult (apartmentListings : List ApartmentListing) : SearchResult :=
  { apartments := groupApartmentsByDistance apartmentListings
    totalFound := apartmentListings.length }

/-- JS a || b on strings: the empty string is falsy. -/
def jsOrStr (a b : String) : String := if a = "" then b else a

/-- JS String.prototype.toLowerCase, on the character list of the string
(the keyword matching below only ever sees ASCII). -/
def toLowerChars (s : String) : List Char := s.toList.map Char.toLower

/-- JS String.prototype.includes (substring containment), on char lists. -/
def strIncludes (s pat : List Char) : Bool :=
  s.tails.any fun t => pat.isPrefixOf t

/-- One raw Places-API result, with the fields isResidentialPlace reads
(a missing field is the empty string, matching (place.name || "")). -/
structure RawPlace where
  name : String
  vicinity : String
  formatted_address : String
  deriving DecidableEq, Repr

/-- residentialKeywords of isResidentialPlace (getRouteAndApartments.ts,
lines 568-583). -/
def residentialKeywords : List String :=
  ["apartment", "condo", "residence", "complex", "towers", "village",
   "loft", "housing", "homes", "living", "manor", "court", "plaza", "place"]

/-- excludeKeywords of isResidentialPlace (getRouteAndApartments.ts,
lines 584-591). -/
def excludeKeywords : List String :=
  ["hotel", "motel", "hospital", "school", "restaurant", "office"]

/-- name = (place.name || "").toLowerCase(). -/
def placeNameText (place : RawPlace) : List Char := toLowerChars place.name

/-- address = (place.vicinity || place.formatted_address || "").toLowerCase(). -/
def placeAddressText (place : RawPlace) : List Char :=
  toLowerChars (jsOrStr place.vicinity place.formatted_address)

/-- hasResidential of isResidentialPlace: some inclusion keyword occurs in the
name or in the address. -/
def hasResidentialKeyword (place : RawPlace) : Bool :=
  residentialKeywords.any fun keyword =>
    strIncludes (placeNameText place) keyword.toList ||
      strIncludes (placeAddressText place) keyword.toList

/-- hasExclusion of isResidentialPlace: some exclusion keyword occurs in the
name or in the address. -/
def hasExcludeKeyword (place : RawPlace) : Bool :=
  excludeKeywords.any fun keyword =>
    strIncludes (placeNameText place) keyword.toList ||
      strIncludes (placeAddressText place) keyword.toList

/-- isResidentialPlace from src/src/app/_actions/getRouteAndApartments.ts
(lines 560-602): hasResidential && !hasExclusion. -/
def isResidentialPlace (place : RawPlace) : Bool :=
  hasResidentialKeyword place && !hasExcludeKeyword place

/-- The shared shape of both dedupe passes: walk the list with a seen-set of
keys, keep an element iff its key was not seen before. -/
def dedupeByKeyAux {α : Type} (key : α → String) (seen : List String) :
    List α → List α
  | [] => []
  | a :: rest =>
    if key a ∈ seen then dedupeByKeyAux key seen rest
    else a :: dedupeByKeyAux key (key a :: seen) rest

/-- deduplicateByGeohash from src/src/app/_actions/getRouteAndApartments.ts
(lines 607-614): first occurrence of each geohash wins. -/
def deduplicateByGeohash (apartments : List LightApartment) : List LightApartment :=
  dedupeByKeyAux (fun a => a.geohash) [] apartments

/-- deduplicateApartments from src/unnamed/part_010 (lines 39-51): first
occurrence of each place_id wins. -/
def deduplicateApartments (apartments : List PlaceDetails) : List PlaceDetails :=
  dedupeByKeyAux (fun a => a.place_id) [] apartments

/-- One Nominatim search result (lat/lon already parsed, as by parseFloat). -/
structure NominatimResult where
  lat : ℚ
  lon : ℚ
  deriving DecidableEq, Repr

/-- geocodeAddress from src/src/lib/maps.ts (lines 27-57).  The axios call is
modelled by its outcome: Except.error () when the request threw
(network/provider failure, caught by the catch block), Except.ok rs for an
HTTP 200 whose body parsed to the result list rs.  Zero matches return null
(none); the catch block ALSO returns null. -/
def geocodeAddress (response : Except Unit (List NominatimResult)) : Option LatLng :=
  match response with
  | .error _ => none
  | .ok [] => none
  | .ok (r :: _) => some { lat := r.lat, lng := r.lon }

/-- generateCacheKey from getRouteAndApartments.ts (line 76-78): parts joined
with a pipe character. -/
def generateCacheKey (parts : List String) : String := String.intercalate "|" parts

/-- JS Number.prototype.toFixed(4).  We render the half-up-rounded value
scaled by 10^4 as an integer string; this differs from the JS "xx.yyyy"
rendering only typographically and induces exactly the same key collisions
(two coordinates share a toFixed(4) string iff they round to the same
1e-4 grid cell). -/
def toFixed4 (q : ℚ) : String := toString (jsRound (q * 10000))

/-- The module-level simpleCache (getRouteAndApartments.ts lines 25-44): a
plain JS Map from string keys to values, modelled as an association list in
which a later set shadows earlier entries.  There is no TTL field and no
eviction of any kind in the source. -/
abbrev Cache := List (String × List LightApartment)

/-- Map.prototype.get. -/
def cacheGet (cache : Cache) (key : String) : Option (List LightApartment) :=
  (cache.find? fun e => e.1 == key).map fun e => e.2

/-- Map.prototype.set (newest binding shadows older ones for cacheGet). -/
def cacheSet (cache : Cache) (key : String) (value : List LightApartment) : Cache :=
  (key, value) :: cache

/-- The fields of getSearchConfig consumed by searchNearPointConcurrent. -/
structure SearchConfig where
  searchRadius : ℕ
  keywords : List String
  deriving DecidableEq, Repr

/-- searchNearPointConcurrent from getRouteAndApartments.ts (lines 367-420).
The network layer is abstracted: net keyword radius models
performSingleSearch (retry/backoff and the isResidentialPlace filter live
inside it), netType ty radius models performTypeSearch.  Returns the result
list, the updated cache and whether the network layer was used.  On a cache
hit (the JS truthiness test is a hit even for a cached empty array, since
arrays are truthy) the stored value is returned unchanged and no network
call happens; on a miss every keyword is searched, then the lodging type
search runs, results are geohash-deduplicated and stored. -/
def searchNearPointConcurrent (cache : Cache) (lat lng : ℚ)
    (searchConfig : SearchConfig) (net : String → ℕ → List LightApartment)
    (netType : String → ℕ → List LightApartment) :
    List LightApartment × Cache × Bool :=
  let cacheKey := generateCacheKey [("nearby"), toFixed4 lat, toFixed4 lng]
  match cacheGet cache cacheKey with
  | some cached => (cached, cache, false)
  | none =>
    let apartments :=
      (searchConfig.keywords.map fun keyword => net keyword searchConfig.searchRadius).flatten
        ++ netType ("lodging") searchConfig.searchRadius
    let deduped := deduplicateByGeohash apartments
    (deduped, cacheSet cache cacheKey deduped, true)

/-- One leg of a route (the numeric distance/duration values and endpoint
data; the rendered text strings are presentation only and omitted). -/
structure RouteLeg where
  distanceValue : ℝ
  durationValue : ℝ
  start_address : String
  end_address : String
  start_location : LatLng
  end_location : LatLng

/-- The RouteOption record as built by getRoute / createMockRoute in
src/unnamed/part_012 (bounds and the rendered summary string are
presentation-only string/aggregate formatting and omitted; overview_polyline
is kept as its char-code list). -/
structure RouteOption where
  route_id : String
  polylinePoints : List ℕ
  legs : List RouteLeg
  copyrights : String

/-- JS Math.atan2 on the reals. -/
noncomputable def atan2 (y x : ℝ) : ℝ :=
  if 0 < x then Real.arctan (y / x)
  else if x < 0 then
    (if 0 ≤ y then Real.arctan (y / x) + Real.pi else Real.arctan (y / x) - Real.pi)
  else
    (if 0 < y then Real.pi / 2 else if y < 0 then -(Real.pi / 2) else 0)

/-- calculateDistance from src/unnamed/part_012 (lines 1558-1571): haversine
great-circle distance with Earth radius R = 3959 miles. -/
noncomputable def calculateDistance (start finish : LatLng) : ℝ :=
  let R : ℝ := 3959
  let dLat : ℝ := ((finish.lat - start.lat : ℚ) : ℝ) * Real.pi / 180
  let dLon : ℝ := ((finish.lng - start.lng : ℚ) : ℝ) * Real.pi / 180
  let a : ℝ :=
    Real.sin (dLat / 2) * Real.sin (dLat / 2) +
      Real.cos (((start.lat : ℚ) : ℝ) * Real.pi / 180) *
        Real.cos (((finish.lat : ℚ) : ℝ) * Real.pi / 180) *
        Real.sin (dLon / 2) * Real.sin (dLon / 2)
  let c : ℝ := 2 * atan2 (Real.sqrt a) (Real.sqrt (1 - a))
  R * c

/-- JS Math.round on the reals. -/
noncomputable def jsRoundR (x : ℝ) : ℤ := ⌊x + 1 / 2⌋

/-- createMockRoute from src/unnamed/part_012 (lines 1500-1553): a synthetic
straight-line route.  The polyline has exactly the two points start and
finish; distance comes from the haversine estimate (converted to km with
1.609344 and stored in meters), duration from an assumed 50 km/h average
speed; Date.now() is the parameter now. -/
noncomputable def createMockRoute (start finish : LatLng) (now : ℕ) : RouteOption :=
  let distance := calculateDistance start finish
  let distanceKm := distance * 1.609344
  let estimatedTime := jsRoundR (distanceKm / 50 * 60)
  { route_id := "mock_" ++ toString now
    polylinePoints := encodePolyline [start, finish]
    legs := [{ distanceValue := distanceKm * 1000
               durationValue := (estimatedTime : ℝ) * 60
               start_address := "Origin"
               end_address := "Destination"
               start_location := start
               end_location := finish }]
    copyrights := "© Mock Route for Testing" }

/-- The route payload of a successful OpenRouteService directions response
(route.geometry as encoded-polyline char codes; summary in meters/seconds). -/
structure OrsRouteData where
  geometry : List ℕ
  summaryDistance : ℚ
  summaryDuration : ℚ
  deriving DecidableEq, Repr

/-- The outcome of the axios directions request inside getRoute: fail when
the request threw (unreachable provider, non-2xx, timeout), noRoute when the
response carried no routes[0], ok r for a usable route. -/
inductive OrsResponse where
  | fail
  | noRoute
  | ok (route : OrsRouteData)

/-- getRoute from src/unnamed/part_012 (lines 1576-1666).  Falls back to
createMockRoute when the API key is missing or blank, when the request
throws, and when no route is returned; otherwise builds the provider route
(route_id prefixed ors_, copyrights OpenRouteService). -/
noncomputable def getRoute (apiKey : Option String) (start finish : LatLng)
    (response : OrsResponse) (now : ℕ) : RouteOption :=
  match apiKey with
  | none => createMockRoute start finish now
  | some key =>
    if key.trim = "" then createMockRoute start finish now
    else
      match response with
      | .fail => createMockRoute start finish now
      | .noRoute => createMockRoute start finish now
      | .ok route =>
        { route_id := "ors_" ++ toString now
          polylinePoints := encodePolyline (decodePolyline route.geometry)
          legs := [{ distanceValue := ((route.summaryDistance : ℚ) : ℝ)
                     durationValue := ((route.summaryDuration : ℚ) : ℝ)
                     start_address := "Origin"
                     end_address := "Destination"
                     start_location := start
                     end_location := finish }]
          copyrights := "© OpenRouteService" }

/-- The GeoJSON feature of a successful OpenRouteService response inside the
maps.ts computeRoute (coordinates plus properties.summary). -/
structure OrsFeature where
  coordinates : List LatLng
  summaryDistance : ℚ
  summaryDuration : ℚ
  deriving DecidableEq, Repr

/-- computeRoute from src/src/lib/maps.ts (lines 62-172).  Throws (here:
Except.error) when the API key is not configured, when geocoding either
endpoint fails, or when the response has no feature; on success returns one
provider route.  Note: unlike the part_012 getRoute, this revision has NO
synthetic-route fallback of any kind. -/
def computeRouteMaps (apiKey : Option String) (geoStart geoEnd : Option LatLng)
    (feature : Option OrsFeature) (now : ℕ) : Except String RouteOption :=
  if apiKey = none ∨ apiKey = some "" then
    .error "OpenRouteService API key not configured"
  else
    match geoStart, geoEnd with
    | some startCoords, some endCoords =>
      match feature with
      | none => .error "No route found"
      | some f =>
        .ok { route_id := "ors_" ++ toString now
              polylinePoints := encodePolyline f.coordinates
              legs := [{ distanceValue := ((f.summaryDistance : ℚ) : ℝ)
                         durationValue := ((f.summaryDuration : ℚ) : ℝ)
                         start_address := ""
                         end_address := ""
                         start_location := startCoords
                         end_location := endCoords }]
              copyrights := "© OpenStreetMap contributors" }
    | _, _ => .error "Failed to geocode addresses"

/-- Concrete input data used to instantiate the theorems below. -/
def sampleApartments : List LightApartment :=
  [{ place_id := "p1", name := "Alpha Apartments", lat := 0, lng := 0, geohash := "g1" },
   { place_id := "p2", name := "Beta Condos", lat := 1, lng := 1, geohash := "g2" }]

/-- Concrete distance oracle: p1 is 1 km from the route, p2 is 8 km away. -/
def sampleDistKm (a : LightApartment) : ℚ := if a.place_id = "p1" then 1 else 8

/-- The listing produced for p2 by the sample data: 8 km ≈ 4.97 mi from the
route, hence beyond the 3 mi cutoff. -/
def sampleFarListing : ApartmentListing :=
  { place := { place_id := "p2", name := "Beta Condos", formatted_address := "",
               lat := 1, lng := 1 }
    distanceToRoute := 8 * (621371 / 1000000)
    bucket := .mi3 }

/-- Concrete listing list with one listing beyond the 3 mi cutoff. -/
def sampleListings : List ApartmentListing :=
  [{ place := { place_id := "q1", name := "Near", formatted_address := "", lat := 0, lng := 0 }
     distanceToRoute := 1, bucket := .mi1 },
   { place := { place_id := "q2", name := "Far", formatted_address := "", lat := 0, lng := 0 }
     distanceToRoute := 5, bucket := .mi3 }]

/-- Concrete place whose name holds both an inclusion and an exclusion keyword. -/
def sampleMixedPlace : RawPlace :=
  { name := "Grand Apartment Hotel", vicinity := "", formatted_address := "" }

/-- Concrete dedupe input: three items, two sharing the geohash g1. -/
def sampleDupList : List LightApartment :=
  [{ place_id := "p1", name := "A", lat := 0, lng := 0, geohash := "g1" },
   { place_id := "p2", name := "B", lat := 1, lng := 1, geohash := "g2" },
   { place_id := "p3", name := "C", lat := 2, lng := 2, geohash := "g1" }]

/-- Concrete apartment returned by the first (keyword "apartment") search. -/
def sampleAptX : LightApartment :=
  { place_id := "x", name := "X Apartments", lat := 0, lng := 0, geohash := "gx" }

/-- Concrete apartment the second (keyword "condo") search WOULD return. -/
def sampleAptY : LightApartment :=
  { place_id := "y", name := "Y Condos", lat := 0, lng := 0, geohash := "gy" }

/-- Search config for the ≤1mi preference (keyword list ["apartment",
"apartment complex"], radius 2500). -/
def sampleCfgA : SearchConfig := { searchRadius := 2500, keywords := [("apartment"), ("apartment complex")] }

/-- Search config for a different query set (["condo"], radius 3000). -/
def sampleCfgB : SearchConfig := { searchRadius := 3000, keywords := [("condo")] }

/-!  Theorems. -/

theorem dedupeByKeyAux_sublist {α : Type} (key : α → String) (seen : List String)
    (l : List α) : (dedupeByKeyAux key seen l).Sublist l := by
  induction l generalizing seen with
  | nil => simp [dedupeByKeyAux]
  | cons a rest ih =>
    rw [dedupeByKeyAux]
    split
    · exact (ih seen).cons a
    · exact (ih _).cons₂ a

theorem dedupeByKeyAux_keys_nodup {α : Type} (key : α → String) (seen : List String)
    (l : List α) :
    ((dedupeByKeyAux key seen l).map key).Nodup ∧
      ∀ b ∈ dedupeByKeyAux key seen l, key b ∉ seen := by
  induction l generalizing seen with
  | nil => simp [dedupeByKeyAux]
  | cons a rest ih =>
    rw [dedupeByKeyAux]
    split
    · exact ih seen
    · rename_i h
      obtain ⟨hnd, hseen⟩ := ih (key a :: seen)
      refine ⟨?_, ?_⟩
      · simp only [List.map_cons, List.nodup_cons]
        refine ⟨?_, hnd⟩
        intro hmem
        obtain ⟨b, hb, hkb⟩ := List.mem_map.mp hmem
        exact hseen b hb (by rw [hkb]; exact List.mem_cons_self _ _)
      · intro b hb
        rcases List.mem_cons.mp hb with rfl | hb'
        · exact h
        · exact fun hm => hseen b hb' (List.mem_cons_of_mem _ hm)

theorem dedupeByKeyAux_eq_self {α : Type} (key : α → String) (seen : List String)
    (l : List α) (hnd : (l.map key).Nodup) (hs : ∀ a ∈ l, key a ∉ seen) :
    dedupeByKeyAux key seen l = l := by
  induction l generalizing seen with
  | nil => simp [dedupeByKeyAux]
  | cons a rest ih =>
    rw [dedupeByKeyAux, if_neg (hs a (List.mem_cons_self _ _))]
    congr 1
    apply ih
    · exact (List.nodup_cons.mp (by simpa using hnd)).2
    · intro b hb hmem
      rcases List.mem_cons.mp hmem with heq | hmem'
      · have hmap : key a ∈ rest.map key := by
          rw [← heq]; exact List.mem_map_of_mem key hb
        exact (List.nodup_cons.mp (by simpa using hnd)).1 hmap
      · exact hs b (List.mem_cons_of_mem _ hb) hmem'

theorem dedupeByKeyAux_find {α : Type} (key : α → String) (seen : List String)
    (l : List α) (b : α) (hb : b ∈ dedupeByKeyAux key seen l) :
    key b ∉ seen ∧ l.find? (fun a => key a == key b) = some b := by
  induction l generalizing seen with
  | nil => simp [dedupeByKeyAux] at hb
  | cons a rest ih =>
    rw [dedupeByKeyAux] at hb
    split at hb
    · rename_i h
      obtain ⟨hnotseen, hfind⟩ := ih seen hb
      have hne : ¬(key a == key b) = true := by
        simp only [beq_iff_eq]
        intro heq
        exact hnotseen (heq ▸ h)
      refine ⟨hnotseen, ?_⟩
      rw [@List.find?_cons_of_neg _ (fun x => key x == key b) a rest hne, hfind]
    · rename_i h
      rcases List.mem_cons.mp hb with rfl | hb'
      · refine ⟨h, ?_⟩
        rw [@List.find?_cons_of_pos _ (fun x => key x == key b) b rest (by simp)]
      · obtain ⟨hnotseen, hfind⟩ := ih (key a :: seen) hb'
        have hne : ¬(key a == key b) = true := by
          simp only [beq_iff_eq]
          intro heq
          exact hnotseen (by rw [← heq]; exact List.mem_cons_self _ _)
        refine ⟨fun hm => hnotseen (List.mem_cons_of_mem _ hm), ?_⟩
        rw [@List.find?_cons_of_neg _ (fun x => key x == key b) a rest hne, hfind]

theorem dedupeByKeyAux_complete {α : Type} (key : α → String) (seen : List String)
    (l : List α) (a : α) (ha : a ∈ l) (hs : key a ∉ seen) :
    ∃ b ∈ dedupeByKeyAux key seen l, key b = key a := by
  induction l generalizing seen with
  | nil => simp at ha
  | cons c rest ih =>
    rw [dedupeByKeyAux]
    rcases List.mem_cons.mp ha with rfl | ha'
    · rw [if_neg hs]
      exact ⟨a, List.mem_cons_self _ _, rfl⟩
    · by_cases hc : key c ∈ seen
      · rw [if_pos hc]
        exact ih seen ha' hs
      · rw [if_neg hc]
        by_cases hca : key a = key c
        · exact ⟨c, List.mem_cons_self _ _, hca.symm⟩
        · obtain ⟨b, hmem, hkb⟩ := ih (key c :: seen) ha' (by
            intro hm
            rcases List.mem_cons.mp hm with h1 | h2
            · exact hca h1
            · exact hs h2)
          exact ⟨b, List.mem_cons_of_mem _ hmem, hkb⟩

theorem dedupeByKeyAux_length {α : Type} (key : α → String) (seen : List String)
    (l : List α) :
    (dedupeByKeyAux key seen l).length
      = ((l.map key).toFinset \ seen.toFinset).card := by
  induction l generalizing seen with
  | nil => simp [dedupeByKeyAux]
  | cons a rest ih =>
    rw [dedupeByKeyAux]
    split
    · rename_i h
      rw [ih seen, List.map_cons, List.toFinset_cons,
        Finset.insert_sdiff_of_mem _ (List.mem_toFinset.mpr h)]
    · rename_i h
      rw [List.length_cons, ih (key a :: seen), List.map_cons, List.toFinset_cons,
        List.toFinset_cons]
      have hnm : key a ∉ seen.toFinset := fun hm => h (List.mem_toFinset.mp hm)
      rw [Finset.insert_sdiff_of_not_mem _ hnm, Finset.sdiff_insert]
      by_cases hmem : key a ∈ (rest.map key).toFinset \ seen.toFinset
      · rw [Finset.insert_eq_self.mpr hmem]
        rw [Finset.card_erase_of_mem hmem]
        have : 0 < ((rest.map key).toFinset \ seen.toFinset).card :=
          Finset.card_pos.mpr ⟨key a, hmem⟩
        omega
      · rw [Finset.card_insert_of_not_mem hmem, Finset.erase_eq_of_not_mem hmem]

/-- C5: dedupe is idempotent and stable.  For both dedupe passes of the
pipeline (deduplicateByGeohash, keyed on the geohash, and
deduplicateApartments, keyed on the provider place_id): dedupe of the empty
list is empty; dedupe (dedupe X) = dedupe X; on a list with K distinct keys
exactly K items are returned; the output is a sublist of X (original order
preserved) and every returned item is the FIRST element of X carrying its
key; every key occurring in X is represented in the output. -/
theorem dedupe_spec :
    (deduplicateByGeohash [] = [] ∧ deduplicateApartments [] = []) ∧
    (∀ X : List LightApartment,
      deduplicateByGeohash (deduplicateByGeohash X) = deduplicateByGeohash X ∧
      (deduplicateByGeohash X).length = (X.map fun a => a.geohash).toFinset.card ∧
      (deduplicateByGeohash X).Sublist X ∧
      (∀ b ∈ deduplicateByGeohash X, X.find? (fun a => a.geohash == b.geohash) = some b) ∧
      (∀ a ∈ X, ∃ b ∈ deduplicateByGeohash X, b.geohash = a.geohash)) ∧
    (∀ X : List PlaceDetails,
      deduplicateApartments (deduplicateApartments X) = deduplicateApartments X ∧
      (deduplicateApartments X).length = (X.map fun a => a.place_id).toFinset.card ∧
      (deduplicateApartments X).Sublist X ∧
      (∀ b ∈ deduplicateApartments X, X.find? (fun a => a.place_id == b.place_id) = some b) ∧
      (∀ a ∈ X, ∃ b ∈ deduplicateApartments X, b.place_id = a.place_id)) := by
  refine ⟨⟨rfl, rfl⟩, fun X => ⟨?_, ?_, ?_, ?_, ?_⟩, fun X => ⟨?_, ?_, ?_, ?_, ?_⟩⟩
  · exact dedupeByKeyAux_eq_self _ _ _
      (dedupeByKeyAux_keys_nodup (fun a => a.geohash) [] X).1 (by simp)
  · simpa using dedupeByKeyAux_length (fun a => a.geohash) [] X
  · exact dedupeByKeyAux_sublist _ _ _
  · exact fun b hb => (dedupeByKeyAux_find _ _ _ b hb).2
  · exact fun a ha => dedupeByKeyAux_complete _ _ _ a ha (by simp)
  · exact dedupeByKeyAux_eq_self _ _ _
      (dedupeByKeyAux_keys_nodup (fun a => a.place_id) [] X).1 (by simp)
  · simpa using dedupeByKeyAux_length (fun a => a.place_id) [] X
  · exact dedupeByKeyAux_sublist _ _ _
  · exact fun b hb => (dedupeByKeyAux_find _ _ _ b hb).2
  · exact fun a ha => dedupeByKeyAux_complete _ _ _ a ha (by simp)

/-- Witness for C5 at a concrete three-element input with two duplicated
geohash keys. -/
theorem dedupe_spec_witness :
    (sampleDupList.get ⟨2, by decide⟩) ∈ sampleDupList ∧
    ∃ b ∈ deduplicateByGeohash sampleDupList,
      b.geohash = (sampleDupList.get ⟨2, by decide⟩).geohash :=
  ⟨by decide, (dedupe_spec.2.1 sampleDupList).2.2.2.2 _ (by decide)⟩

/-- C9: the bucket assignment maps 1.0 mi to the ≤1mi bucket, 1.000001 mi to
≤2mi, 2.0 mi to ≤2mi and 2.000001 mi to ≤3mi: every boundary value belongs
to the lower bucket. -/
theorem bucket_boundary_values :
    getBucketFromDistance 1 = .mi1 ∧
    getBucketFromDistance (1000001 / 1000000) = .mi2 ∧
    getBucketFromDistance 2 = .mi2 ∧
    getBucketFromDistance (2000001 / 1000000) = .mi3 := by
  refine ⟨?_, ?_, ?_, ?_⟩ <;> norm_num [getBucketFromDistance]

/-- C1 counterexample: in the part_010 revision, a candidate whose nearest
point on the route is 1 km = 1000 m away gets distanceToRoute = 1000 (the
raw meter value), not the mile value kmToMiles 1 = 0.621371: the stored
distanceToRoute is NOT in miles in every pipeline revision. -/
theorem distance_unit_counterexample :
    ((processApartmentDistances
        [{ place_id := "p1", name := "A", formatted_address := "", lat := 0, lng := 0 }]
        fun _ => 1000).map fun l => l.distanceToRoute) = [1000] ∧
    kmToMiles 1 = 621371 / 1000000 ∧
    (1000 : ℚ) ≠ 621371 / 1000000 := by
  refine ⟨rfl, by norm_num [kmToMiles], by norm_num⟩

/-- C1 amended: in the LATEST revision (processApartmentDistancesLight) the
stored distanceToRoute is the kilometer distance converted to miles by the
factor 0.621371 exactly once, at the final step, and the bucket is computed
from that mile value; in the part_010 revision (processApartmentDistances)
the stored distanceToRoute is the raw meter distance with NO conversion, the
meters-to-miles conversion (factor 0.000621371) happening only inside its
bucket function. -/
theorem distance_unit_amended (apartments : List LightApartment)
    (apartmentsFull : List PlaceDetails) (distKm : LightApartment → ℚ)
    (distMeters : PlaceDetails → ℚ) :
    ((processApartmentDistancesLight apartments distKm).map fun l => l.distanceToRoute)
        = (apartments.map fun a => kmToMiles (distKm a)) ∧
    ((processApartmentDistancesLight apartments distKm).map fun l => l.bucket)
        = (apartments.map fun a => getBucketFromDistance (kmToMiles (distKm a))) ∧
    ((processApartmentDistances apartmentsFull distMeters).map fun l => l.distanceToRoute)
        = apartmentsFull.map distMeters ∧
    ((processApartmentDistances apartmentsFull distMeters).map fun l => l.bucket)
        = (apartmentsFull.map fun a => getBucketFromDistanceMeters (distMeters a)) := by
  refine ⟨?_, ?_, ?_, ?_⟩ <;>
    simp [processApartmentDistancesLight, processApartmentDistances, kmToMiles]

/-- C4: the residential classifier is a pure predicate (a total Lean function
of the input record), and on any input whose name or address text matches at
least one residential-inclusion keyword AND at least one exclusion keyword it
returns false: exclusion always wins over inclusion. -/
theorem classifier_exclusion_precedence (place : RawPlace)
    (hincl : hasResidentialKeyword place = true)
    (hexcl : hasExcludeKeyword place = true) :
    isResidentialPlace place = false := by
  simp [isResidentialPlace, hexcl]

/-- Witness for C4: a name holding both the inclusion keyword apartment and
the exclusion keyword hotel is classified non-residential. -/
theorem classifier_exclusion_precedence_witness :
    hasResidentialKeyword sampleMixedPlace = true ∧
    hasExcludeKeyword sampleMixedPlace = true ∧
    isResidentialPlace sampleMixedPlace = false :=
  ⟨by decide, by decide,
    classifier_exclusion_precedence sampleMixedPlace (by decide) (by decide)⟩

theorem mem_insertByDistance (a x : ApartmentListing) (l : List ApartmentListing) :
    x ∈ insertByDistance a l ↔ x = a ∨ x ∈ l := by
  induction l with
  | nil => simp [insertByDistance]
  | cons b rest ih =>
    rw [insertByDistance]
    split
    · simp [List.mem_cons]
    · simp only [List.mem_cons, ih]
      tauto

theorem mem_sortByDistance (x : ApartmentListing) (l : List ApartmentListing) :
    x ∈ sortByDistance l ↔ x ∈ l := by
  induction l with
  | nil => simp [sortByDistance]
  | cons b rest ih =>
    show x ∈ insertByDistance b (sortByDistance rest) ↔ _
    rw [mem_insertByDistance]
    simp only [List.mem_cons, ih]

theorem length_insertByDistance (a : ApartmentListing) (l : List ApartmentListing) :
    (insertByDistance a l).length = l.length + 1 := by
  induction l with
  | nil => rfl
  | cons b rest ih =>
    rw [insertByDistance]
    split <;> simp [ih]

theorem length_sortByDistance (l : List ApartmentListing) :
    (sortByDistance l).length = l.length := by
  induction l with
  | nil => rfl
  | cons b rest ih =>
    show (insertByDistance b (sortByDistance rest)).length = _
    rw [length_insertByDistance, ih, List.length_cons]

theorem getBucket_eq_mi1 (d : ℚ) : getBucketFromDistance d = .mi1 ↔ d ≤ 1 := by
  unfold getBucketFromDistance
  split_ifs with h1 h2 <;> simp_all

theorem getBucket_eq_mi2 (d : ℚ) :
    getBucketFromDistance d = .mi2 ↔ 1 < d ∧ d ≤ 2 := by
  unfold getBucketFromDistance
  split_ifs with h1 h2 <;> simp_all <;> linarith

theorem getBucket_eq_mi3 (d : ℚ) : getBucketFromDistance d = .mi3 ↔ 2 < d := by
  unfold getBucketFromDistance
  split_ifs with h1 h2 <;> simp_all <;> linarith

theorem bucket_eq_of_mem_light (apartments : List LightApartment)
    (distKm : LightApartment → ℚ) (l : ApartmentListing)
    (hl : l ∈ processApartmentDistancesLight apartments distKm) :
    l.bucket = getBucketFromDistance l.distanceToRoute := by
  obtain ⟨a, _, rfl⟩ := List.mem_map.mp hl
  rfl

theorem mem_group_iff (listings : List ApartmentListing) (b : DistanceBucket)
    (l : ApartmentListing) :
    l ∈ sortByDistance
        ((listings.filter fun a => a.distanceToRoute ≤ 3).filter fun a => a.bucket = b) ↔
      l ∈ listings ∧ l.distanceToRoute ≤ 3 ∧ l.bucket = b := by
  rw [mem_sortByDistance, List.mem_filter, List.mem_filter]
  simp [and_assoc]

/-- C3: in every SearchResult the buckets of groupApartmentsByDistance
applied to the listings produced by processApartmentDistancesLight are a
non-overlapping partition by distanceToRoute with thresholds 1 and 2 miles:
a listing is in the ≤1mi bucket iff its distance is ≤ 1, in the ≤2mi bucket
iff its distance is in (1, 2], in the ≤3mi bucket iff its distance is in
(2, 3], and any listing farther than 3 miles is dropped, appearing in no
bucket. -/
theorem buckets_partition (apartments : List LightApartment)
    (distKm : LightApartment → ℚ) (l : ApartmentListing) :
    (l ∈ (groupApartmentsByDistance (processApartmentDistancesLight apartments distKm)).1 ↔
      l ∈ processApartmentDistancesLight apartments distKm ∧ l.distanceToRoute ≤ 1) ∧
    (l ∈ (groupApartmentsByDistance (processApartmentDistancesLight apartments distKm)).2.1 ↔
      l ∈ processApartmentDistancesLight apartments distKm ∧
        1 < l.distanceToRoute ∧ l.distanceToRoute ≤ 2) ∧
    (l ∈ (groupApartmentsByDistance (processApartmentDistancesLight apartments distKm)).2.2 ↔
      l ∈ processApartmentDistancesLight apartments distKm ∧
        2 < l.distanceToRoute ∧ l.distanceToRoute ≤ 3) ∧
    (3 < l.distanceToRoute →
      l ∉ (groupApartmentsByDistance (processApartmentDistancesLight apartments distKm)).1 ∧
      l ∉ (groupApartmentsByDistance (processApartmentDistancesLight apartments distKm)).2.1 ∧
      l ∉ (groupApartmentsByDistance (processApartmentDistancesLight apartments distKm)).2.2) := by
  have h1 : (groupApartmentsByDistance (processApartmentDistancesLight apartments distKm)).1
      = sortByDistance (((processApartmentDistancesLight apartments distKm).filter
          fun a => a.distanceToRoute ≤ 3).filter fun a => a.bucket = .mi1) := rfl
  have h2 : (groupApartmentsByDistance (processApartmentDistancesLight apartments distKm)).2.1
      = sortByDistance (((processApartmentDistancesLight apartments distKm).filter
          fun a => a.distanceToRoute ≤ 3).filter fun a => a.bucket = .mi2) := rfl
  have h3 : (groupApartmentsByDistance (processApartmentDistancesLight apartments distKm)).2.2
      = sortByDistance (((processApartmentDistancesLight apartments distKm).filter
          fun a => a.distanceToRoute ≤ 3).filter fun a => a.bucket = .mi3) := rfl
  rw [h1, h2, h3, mem_group_iff, mem_group_iff, mem_group_iff]
  constructor
  · constructor
    · rintro ⟨hm, h3le, hb⟩
      have := bucket_eq_of_mem_light apartments distKm l hm
      exact ⟨hm, (getBucket_eq_mi1 _).mp (this ▸ hb)⟩
    · rintro ⟨hm, hle⟩
      have := bucket_eq_of_mem_light apartments distKm l hm
      exact ⟨hm, by linarith, by rw [this]; exact (getBucket_eq_mi1 _).mpr hle⟩
  refine ⟨?_, ?_, ?_⟩
  · constructor
    · rintro ⟨hm, h3le, hb⟩
      have := bucket_eq_of_mem_light apartments distKm l hm
      exact ⟨hm, (getBucket_eq_mi2 _).mp (this ▸ hb)⟩
    · rintro ⟨hm, hgt, hle⟩
      have := bucket_eq_of_mem_light apartments distKm l hm
      exact ⟨hm, by linarith, by rw [this]; exact (getBucket_eq_mi2 _).mpr ⟨hgt, hle⟩⟩
  · constructor
    · rintro ⟨hm, h3le, hb⟩
      have := bucket_eq_of_mem_light apartments distKm l hm
      exact ⟨hm, (getBucket_eq_mi3 _).mp (this ▸ hb), h3le⟩
    · rintro ⟨hm, hgt, hle⟩
      have := bucket_eq_of_mem_light apartments distKm l hm
      exact ⟨hm, hle, by rw [this]; exact (getBucket_eq_mi3 _).mpr hgt⟩
  · intro hfar
    refine ⟨?_, ?_, ?_⟩ <;> rintro ⟨_, h3le, _⟩ <;> linarith

/-- Witness for C3: in the concrete sample search, the candidate 8 km
(≈ 4.97 mi) from the route appears in no bucket. -/
theorem buckets_partition_witness :
    3 < sampleFarListing.distanceToRoute ∧
    sampleFarListing ∉
      (groupApartmentsByDistance (processApartmentDistancesLight sampleApartments sampleDistKm)).1 ∧
    sampleFarListing ∉
      (groupApartmentsByDistance (processApartmentDistancesLight sampleApartments sampleDistKm)).2.1 ∧
    sampleFarListing ∉
      (groupApartmentsByDistance (processApartmentDistancesLight sampleApartments sampleDistKm)).2.2 :=
  ⟨by norm_num [sampleFarListing],
    (buckets_partition sampleApartments sampleDistKm sampleFarListing).2.2.2
      (by norm_num [sampleFarListing])⟩

theorem filter_bucket_partition (l : List ApartmentListing) :
    (l.filter fun a => a.bucket = .mi1).length + (l.filter fun a => a.bucket = .mi2).length
      + (l.filter fun a => a.bucket = .mi3).length = l.length := by
  induction l with
  | nil => rfl
  | cons a rest ih =>
    rcases h : a.bucket <;> simp [List.filter_cons, h] <;> omega

/-- C10: totalFound counts ALL processed listings (before the 3 mi cutoff),
while the buckets together hold exactly the listings with distanceToRoute
≤ 3; hence totalFound is at least the sum of the three bucket sizes, and
strictly greater as soon as some listing lies more than 3 miles from the
route. -/
theorem totalFound_spec (listings : List ApartmentListing) :
    (mkSearchResult listings).totalFound = listings.length ∧
    ((mkSearchResult listings).apartments.1.length
        + (mkSearchResult listings).apartments.2.1.length
        + (mkSearchResult listings).apartments.2.2.length
      = (listings.filter fun a => a.distanceToRoute ≤ 3).length) ∧
    ((mkSearchResult listings).apartments.1.length
        + (mkSearchResult listings).apartments.2.1.length
        + (mkSearchResult listings).apartments.2.2.length
      ≤ (mkSearchResult listings).totalFound) ∧
    ((∃ l ∈ listings, 3 < l.distanceToRoute) →
      (mkSearchResult listings).apartments.1.length
          + (mkSearchResult listings).apartments.2.1.length
          + (mkSearchResult listings).apartments.2.2.length
        < (mkSearchResult listings).totalFound) := by
  have hsum : (mkSearchResult listings).apartments.1.length
      + (mkSearchResult listings).apartments.2.1.length
      + (mkSearchResult listings).apartments.2.2.length
      = (listings.filter fun a => a.distanceToRoute ≤ 3).length := by
    show (sortByDistance _).length + (sortByDistance _).length
        + (sortByDistance _).length = _
    rw [length_sortByDistance, length_sortByDistance, length_sortByDistance]
    exact filter_bucket_partition _
  refine ⟨rfl, hsum, ?_, ?_⟩
  · rw [hsum]
    exact List.length_filter_le _ _
  · rintro ⟨l, hl, hfar⟩
    rw [hsum]
    show _ < listings.length
    apply List.length_filter_lt_length_iff_exists.mpr
    exact ⟨l, hl, by simp; linarith⟩

/-- Witness for C10 at a concrete listing list with one listing 5 miles out:
the bucket sizes sum to strictly less than totalFound. -/
theorem totalFound_spec_witness :
    (∃ l ∈ sampleListings, 3 < l.distanceToRoute) ∧
    ((mkSearchResult sampleListings).apartments.1.length
        + (mkSearchResult sampleListings).apartments.2.1.length
        + (mkSearchResult sampleListings).apartments.2.2.length
      < (mkSearchResult sampleListings).totalFound) :=
  ⟨by decide, (totalFound_spec sampleListings).2.2.2 (by decide)⟩

/-- C7 counterexample: a provider/network failure and a zero-match response
produce the very same outcome null (none) from geocodeAddress, so the caller
can NOT distinguish zero-matches from infrastructural failure; there is no
distinct GeocodeFailure outcome in the code (the catch block also returns
null). -/
theorem geocode_outcome_counterexample :
    geocodeAddress (Except.error ()) = none ∧
    geocodeAddress (Except.ok []) = none :=
  ⟨rfl, rfl⟩

/-- C7 amended: geocodeAddress returns a typed empty result (null / none, not
an exception) BOTH when the provider returns zero matches and when the
request fails, and these two cases are the only ones returning none; on a
non-empty match list it returns the top-ranked match's coordinate.  The two
none-cases are indistinguishable to the caller. -/
theorem geocode_amended (response : Except Unit (List NominatimResult)) :
    (geocodeAddress response = none ↔
      response = Except.error () ∨ response = Except.ok []) ∧
    ∀ (r : NominatimResult) (rest : List NominatimResult),
      response = Except.ok (r :: rest) →
      geocodeAddress response = some { lat := r.lat, lng := r.lon } := by
  constructor
  · rcases response with u | ls
    · cases u
      simp [geocodeAddress]
    · rcases ls with _ | ⟨r, rest⟩ <;> simp [geocodeAddress]
  · rintro r rest rfl
    rfl

/-- Witness for C7 at a concrete one-match response. -/
theorem geocode_amended_witness :
    geocodeAddress (Except.ok [{ lat := 29, lon := -95 }]) = some { lat := 29, lng := -95 } :=
  (geocode_amended (Except.ok [{ lat := 29, lon := -95 }])).2 _ [] rfl

/-- Helper: the nearby cache key at the origin evaluates to nearby|0|0. -/
theorem toFixed4_zero : toFixed4 0 = "0" := by
  have h0 : jsRound ((0 : ℚ) * 10000) = 0 := by
    unfold jsRound
    norm_num
  unfold toFixed4
  rw [h0]
  rfl

/-- C8 counterexample: the place-search cache key is NOT (rounded coordinate,
provider, query).  A first search at the origin with the keyword set of the
≤1mi config caches its result; a second search at the same point with a
DIFFERENT query set (the condo config) and a network layer that would return
a different apartment still scores a cache hit and returns the first query's
stored result without touching the network: the key contains no provider and
no query component.  (Entries also carry no TTL: simpleCache is a plain
Map that is never evicted.) -/
theorem cache_key_counterexample :
    (searchNearPointConcurrent
        (searchNearPointConcurrent [] 0 0 sampleCfgA (fun _ _ => [sampleAptX])
          fun _ _ => []).2.1
        0 0 sampleCfgB (fun _ _ => [sampleAptY]) fun _ _ => []).1 = [sampleAptX] ∧
    (searchNearPointConcurrent
        (searchNearPointConcurrent [] 0 0 sampleCfgA (fun _ _ => [sampleAptX])
          fun _ _ => []).2.1
        0 0 sampleCfgB (fun _ _ => [sampleAptY]) fun _ _ => []).2.2 = false ∧
    sampleCfgA.keywords ≠ sampleCfgB.keywords := by
  have h1 : searchNearPointConcurrent [] 0 0 sampleCfgA (fun _ _ => [sampleAptX])
      (fun _ _ => []) = ([sampleAptX], [("nearby|0|0", [sampleAptX])], true) := by
    unfold searchNearPointConcurrent
    rw [toFixed4_zero]
    rfl
  have h2 : searchNearPointConcurrent [("nearby|0|0", [sampleAptX])] 0 0 sampleCfgB
      (fun _ _ => [sampleAptY]) (fun _ _ => [])
      = ([sampleAptX], [("nearby|0|0", [sampleAptX])], false) := by
    unfold searchNearPointConcurrent
    rw [toFixed4_zero]
    rfl
  rw [h1]
  refine ⟨?_, ?_, by decide⟩
  · show (searchNearPointConcurrent [("nearby|0|0", [sampleAptX])] 0 0 sampleCfgB
        (fun _ _ => [sampleAptY]) fun _ _ => []).1 = [sampleAptX]
    rw [h2]
  · show (searchNearPointConcurrent [("nearby|0|0", [sampleAptX])] 0 0 sampleCfgB
        (fun _ _ => [sampleAptY]) fun _ _ => []).2.2 = false
    rw [h2]

/-- C8 amended: cache entries are keyed by the prefix nearby plus the two
coordinates rounded to 4 decimals ONLY (no provider and no query component);
entries carry no TTL and are never removed (the underlying Map only grows);
a cache hit returns the stored value unchanged and skips the network layer
entirely, whatever the current keyword config and network behaviour are. -/
theorem cache_behavior_amended :
    (∀ (cache : Cache) (lat lng : ℚ) (cfg : SearchConfig)
        (net netType : String → ℕ → List LightApartment) (v : List LightApartment),
      cacheGet cache (generateCacheKey [("nearby"), toFixed4 lat, toFixed4 lng]) = some v →
      searchNearPointConcurrent cache lat lng cfg net netType = (v, cache, false)) ∧
    (∀ (cache : Cache) (lat lng : ℚ) (cfg : SearchConfig)
        (net netType : String → ℕ → List LightApartment) (key : String),
      (cacheGet cache key).isSome = true →
      (cacheGet (searchNearPointConcurrent cache lat lng cfg net netType).2.1 key).isSome
        = true) := by
  constructor
  · intro cache lat lng cfg net netType v hv
    unfold searchNearPointConcurrent
    simp only [hv]
  · intro cache lat lng cfg net netType key hkey
    unfold searchNearPointConcurrent
    rcases h : cacheGet cache (generateCacheKey [("nearby"), toFixed4 lat, toFixed4 lng]) with
      _ | v
    · simp only [h]
      show (cacheGet (cacheSet cache _ _) key).isSome = true
      unfold cacheSet cacheGet
      rw [List.find?_cons]
      split
      · rfl
      · exact hkey
    · simp only [h]
      exact hkey

/-- Witness for C8: a concrete cache hit at the origin returns the stored
value, leaves the cache unchanged and skips the network. -/
theorem cache_behavior_amended_witness :
    searchNearPointConcurrent [("nearby|0|0", [sampleAptX])] 0 0 sampleCfgB
        (fun _ _ => [sampleAptY]) (fun _ _ => [])
      = ([sampleAptX], [("nearby|0|0", [sampleAptX])], false) :=
  cache_behavior_amended.1 [("nearby|0|0", [sampleAptX])] 0 0 sampleCfgB
    (fun _ _ => [sampleAptY]) (fun _ _ => []) [sampleAptX]
    (by rw [generateCacheKey, toFixed4_zero]; rfl)

/-- C6 counterexample: in the maps.ts revision, computeRoute with no
credential configured THROWS (OpenRouteService API key not configured)
instead of returning a synthetic route: the misconfigured-provider case
does NOT degrade gracefully in that revision, and no revision attaches a
source: provider|synthetic field to its routes. -/
theorem route_fallback_counterexample :
    computeRouteMaps none (some { lat := 0, lng := 0 }) (some { lat := 1, lng := 1 })
        (some { coordinates := [{ lat := 0, lng := 0 }, { lat := 1, lng := 1 }],
                summaryDistance := 1000, summaryDuration := 60 }) 0
      = Except.error "OpenRouteService API key not configured" := by
  rfl

/-- C6 amended: in the part_012 revision, getRoute returns the synthetic
createMockRoute whenever the credential is missing, blank, the provider
request throws, or no route is returned; the synthetic route is a two-point
polyline directly connecting origin and destination with distance estimated
by the haversine formula (Earth radius 3959 mi) and duration from an assumed
50 km/h speed, and it is detectable only through its route_id prefix mock_
and its copyrights text (which differ from the provider route's ors_ prefix
and copyrights) — there is no dedicated source field.  The maps.ts
computeRoute revision instead throws when the key is missing. -/
theorem route_fallback_amended :
    (∀ (start finish : LatLng) (resp : OrsResponse) (now : ℕ),
      getRoute none start finish resp now = createMockRoute start finish now) ∧
    (∀ (key : String) (start finish : LatLng) (resp : OrsResponse) (now : ℕ),
      key.trim = "" →
      getRoute (some key) start finish resp now = createMockRoute start finish now) ∧
    (∀ (key : String) (start finish : LatLng) (now : ℕ),
      key.trim ≠ "" →
      getRoute (some key) start finish .fail now = createMockRoute start finish now ∧
      getRoute (some key) start finish .noRoute now = createMockRoute start finish now) ∧
    (∀ (start finish : LatLng) (now : ℕ),
      (createMockRoute start finish now).route_id = "mock_" ++ toString now ∧
      (createMockRoute start finish now).copyrights = "© Mock Route for Testing" ∧
      (createMockRoute start finish now).polylinePoints = encodePolyline [start, finish] ∧
      ((createMockRoute start finish now).legs.map fun leg => leg.distanceValue)
        = [calculateDistance start finish * 1.609344 * 1000]) ∧
    (∀ (key : String) (start finish : LatLng) (route : OrsRouteData) (now : ℕ),
      key.trim ≠ "" →
      (getRoute (some key) start finish (.ok route) now).route_id = "ors_" ++ toString now ∧
      (getRoute (some key) start finish (.ok route) now).copyrights = "© OpenRouteService") ∧
    ("© Mock Route for Testing" : String) ≠ "© OpenRouteService" := by
  refine ⟨?_, ?_, ?_, ?_, ?_, by decide⟩
  · intro start finish resp now
    rfl
  · intro key start finish resp now h
    simp [getRoute, h]
  · intro key start finish now h
    simp [getRoute, h]
  · intro start finish now
    refine ⟨rfl, rfl, rfl, ?_⟩
    simp [createMockRoute]
  · intro key start finish route now h
    simp [getRoute, h]

/-- Witness for C6: with no API key configured, a concrete getRoute call
returns the synthetic route, whose copyrights tag identifies it. -/
theorem route_fallback_amended_witness :
    getRoute none { lat := 0, lng := 0 } { lat := 1, lng := 1 } .fail 7
        = createMockRoute { lat := 0, lng := 0 } { lat := 1, lng := 1 } 7 ∧
    (createMockRoute { lat := 0, lng := 0 } { lat := 1, lng := 1 } 7).copyrights
        = "© Mock Route for Testing" :=
  ⟨route_fallback_amended.1 { lat := 0, lng := 0 } { lat := 1, lng := 1 } .fail 7,
    (route_fallback_amended.2.2.2.1 { lat := 0, lng := 0 } { lat := 1, lng := 1 } 7).2.1⟩

theorem encChunks_ne_nil (value : ℕ) : encChunks value ≠ [] := by
  rw [encChunks]
  split <;> simp

theorem decVar_encChunks (value : ℕ) (rest : List ℕ) (shift acc : ℕ) :
    decVar (encChunks value ++ rest) shift acc = some (acc + value * 2 ^ shift, rest) := by
  induction value using Nat.strong_induction_on generalizing shift acc with
  | _ value ih =>
    rw [encChunks]
    split
    · rename_i h
      rw [List.singleton_append]
      simp only [decVar]
      have hb : ((value + 63 : ℕ) : ℤ) - 63 = (value : ℤ) := by push_cast; ring
      rw [hb, if_pos (by exact_mod_cast h)]
      have hm : ((value : ℤ) % 32).toNat = value := by omega
      rw [hm]
    · rename_i h
      rw [List.cons_append]
      simp only [decVar]
      have hb : ((32 + value % 32 + 63 : ℕ) : ℤ) - 63 = (32 + (value % 32 : ℕ) : ℤ) := by
        push_cast; ring
      rw [hb, if_neg (by omega)]
      have hm : ((32 + (value % 32 : ℕ) : ℤ) % 32).toNat = value % 32 := by omega
      rw [hm, ih (value / 32) (Nat.div_lt_self (by omega) (by omega)) (shift + 5)
        (acc + value % 32 * 2 ^ shift)]
      have hval : acc + value % 32 * 2 ^ shift + value / 32 * 2 ^ (shift + 5)
          = acc + value * 2 ^ shift := by
        have hd : value % 32 + 32 * (value / 32) = value := Nat.mod_add_div value 32
        have hexp : value * 2 ^ shift
            = value % 32 * 2 ^ shift + value / 32 * (2 ^ shift * 32) := by
          conv_lhs => rw [← hd]
          ring
        rw [pow_add]
        norm_num
        linarith
      rw [hval]

theorem unzigzag_zigzag {v : ℤ} (h : v.natAbs < 1073741824) :
    unzigzag (zigzag v).toNat = v := by
  unfold zigzag toInt32 unzigzag
  split_ifs <;> omega

theorem abs_jsRound_le {x : ℚ} {M : ℤ} (h : |x| ≤ (M : ℚ)) : |jsRound x| ≤ M := by
  rw [abs_le] at h ⊢
  unfold jsRound
  constructor
  · exact Int.le_floor.mpr (by push_cast; linarith)
  · have hlt : ⌊x + 1 / 2⌋ < M + 1 := Int.floor_lt.mpr (by push_cast; linarith)
    omega

theorem jsRound_accuracy (x : ℚ) : |(jsRound x : ℚ) - x| ≤ 1 / 2 := by
  unfold jsRound
  rw [abs_le]
  constructor
  · have hlt := Int.lt_floor_add_one (x + 1 / 2)
    have : x + 1 / 2 < (⌊x + 1 / 2⌋ : ℚ) + 1 := by exact_mod_cast hlt
    linarith
  · have hle := Int.floor_le (x + 1 / 2)
    linarith

theorem length_le_encodePolyAux (points : List LatLng) (a b : ℤ) :
    points.length ≤ (encodePolyAux points a b).length := by
  induction points generalizing a b with
  | nil => simp [encodePolyAux]
  | cons p rest ih =>
    simp only [encodePolyAux, List.length_append, List.length_cons]
    have h1 : 1 ≤ (encodeValue (jsRound (p.lat * 100000) - a)).length := by
      unfold encodeValue
      exact List.length_pos.mpr (encChunks_ne_nil _)
    have h2 := ih (jsRound (p.lat * 100000)) (jsRound (p.lng * 100000))
    omega

theorem jsRound_scaled_lat {q : ℚ} (h : |q| ≤ 90) : |jsRound (q * 100000)| ≤ 9000000 := by
  apply abs_jsRound_le
  rw [abs_mul]
  rw [abs_of_pos (by norm_num : (0 : ℚ) < 100000)]
  push_cast
  nlinarith [abs_nonneg q]

theorem jsRound_scaled_lng {q : ℚ} (h : |q| ≤ 180) : |jsRound (q * 100000)| ≤ 18000000 := by
  apply abs_jsRound_le
  rw [abs_mul]
  rw [abs_of_pos (by norm_num : (0 : ℚ) < 100000)]
  push_cast
  nlinarith [abs_nonneg q]

theorem decode_encode_aux (points : List LatLng)
    (hrange : ∀ p ∈ points, |p.lat| ≤ 90 ∧ |p.lng| ≤ 180)
    (prevLat prevLng : ℤ) (hpa : |prevLat| ≤ 9000000) (hpb : |prevLng| ≤ 18000000)
    (fuel : ℕ) (hfuel : points.length ≤ fuel) :
    decodePolyAux fuel (encodePolyAux points prevLat prevLng) prevLat prevLng
      = points.map fun p =>
          { lat := (jsRound (p.lat * 100000) : ℚ) / 100000,
            lng := (jsRound (p.lng * 100000) : ℚ) / 100000 } := by
  induction points generalizing prevLat prevLng fuel with
  | nil =>
    rcases fuel with _ | fuel <;> simp [encodePolyAux, decodePolyAux, decVar]
  | cons p rest ih =>
    rcases fuel with _ | fuel
    · simp at hfuel
    have hp := hrange p (List.mem_cons_self _ _)
    have hlat := jsRound_scaled_lat hp.1
    have hlng := jsRound_scaled_lng hp.2
    simp only [encodePolyAux, decodePolyAux, List.append_assoc, encodeValue,
      decVar_encChunks, Nat.zero_add, pow_zero, Nat.mul_one]
    have hu1 : unzigzag (zigzag (jsRound (p.lat * 100000) - prevLat)).toNat
        = jsRound (p.lat * 100000) - prevLat := by
      apply unzigzag_zigzag
      rw [abs_le] at hlat hpa
      omega
    have hu2 : unzigzag (zigzag (jsRound (p.lng * 100000) - prevLng)).toNat
        = jsRound (p.lng * 100000) - prevLng := by
      apply unzigzag_zigzag
      rw [abs_le] at hlng hpb
      omega
    rw [hu1, hu2]
    have ha : prevLat + (jsRound (p.lat * 100000) - prevLat) = jsRound (p.lat * 100000) := by
      ring
    have hb : prevLng + (jsRound (p.lng * 100000) - prevLng) = jsRound (p.lng * 100000) := by
      ring
    rw [ha, hb, List.map_cons]
    congr 1
    exact ih (fun q hq => hrange q (List.mem_cons_of_mem _ hq)) _ _ hlat hlng fuel
      (by simpa using hfuel)

/-- C2: polyline round-trip.  For every finite coordinate sequence with
latitudes in [-90, 90] and longitudes in [-180, 180],
decodePolyline (encodePolyline points) has the same length as points and
agrees with it within 1e-5 degrees in every latitude and longitude
component (the codec stores each coordinate as its nearest 1e-5 grid
point). -/
theorem polyline_roundtrip (points : List LatLng)
    (hrange : ∀ p ∈ points, |p.lat| ≤ 90 ∧ |p.lng| ≤ 180) :
    List.Forall₂
      (fun d o => |d.lat - o.lat| ≤ 1 / 100000 ∧ |d.lng - o.lng| ≤ 1 / 100000)
      (decodePolyline (encodePolyline points)) points := by
  unfold decodePolyline encodePolyline
  rw [decode_encode_aux points hrange 0 0 (by norm_num) (by norm_num) _
    (length_le_encodePolyAux points 0 0)]
  rw [List.forall₂_map_left_iff]
  rw [List.forall₂_same]
  intro p hp
  constructor
  · have h := jsRound_accuracy (p.lat * 100000)
    have heq : (jsRound (p.lat * 100000) : ℚ) / 100000 - p.lat
        = ((jsRound (p.lat * 100000) : ℚ) - p.lat * 100000) / 100000 := by ring
    rw [heq, abs_div, abs_of_pos (by norm_num : (0 : ℚ) < 100000)]
    rw [div_le_div_iff (by norm_num) (by norm_num)]
    linarith
  · have h := jsRound_accuracy (p.lng * 100000)
    have heq : (jsRound (p.lng * 100000) : ℚ) / 100000 - p.lng
        = ((jsRound (p.lng * 100000) : ℚ) - p.lng * 100000) / 100000 := by ring
    rw [heq, abs_div, abs_of_pos (by norm_num : (0 : ℚ) < 100000)]
    rw [div_le_div_iff (by norm_num) (by norm_num)]
    linarith

/-- Witness for C2 at a concrete two-point Houston-area polyline. -/
theorem polyline_roundtrip_witness :
    (∀ p ∈ [({ lat := 29, lng := -95 } : LatLng), { lat := 30, lng := -96 }],
      |p.lat| ≤ 90 ∧ |p.lng| ≤ 180) ∧
    List.Forall₂
      (fun d o => |d.lat - o.lat| ≤ 1 / 100000 ∧ |d.lng - o.lng| ≤ 1 / 100000)
      (decodePolyline (encodePolyline
        [{ lat := 29, lng := -95 }, { lat := 30, lng := -96 }]))
      ([{ lat := 29, lng := -95 }, { lat := 30, lng := -96 }] : List LatLng) := by
  have hr : ∀ p ∈ [({ lat := 29, lng := -95 } : LatLng), { lat := 30, lng := -96 }],
      |p.lat| ≤ 90 ∧ |p.lng| ≤ 180 := by
    intro p hp
    rcases List.mem_cons.mp hp with rfl | hp
    · constructor <;> norm_num
    rcases List.mem_cons.mp hp with rfl | hp
    · constructor <;> norm_num
    · simp at hp
  exact ⟨hr, polyline_roundtrip _ hr⟩

end ResidentialSearch
